import Mathlib

/-!
Verification of the categorical-variation validation engine of cat-vrs-python.

The development shallowly embeds the data model and the constraint validators of
`src/ga4gh/cat_vrs/models.py`, `src/ga4gh/cat_vrs/recipes.py` and
`src/ga4gh/cat_vrs/profile_models.py`.  Construction of a variant-kind object is
modelled as a pure function from the decoded `constraints` value to
`Except ValErr _`: pydantic's structural field constraints (`min_length`,
`max_length`, field types) run first, then the `field_validator` body.
-/

namespace CatVrs

/-- Modelled from the spec: the fixed vocabulary of relation primary codes (the
`Relation` enumeration that `recipes.py` and `profile_models.py` import; its defining
module is not part of the snapshot).  The spec lists liftover_to, transcribes_to,
translates_from, codon_translation, sequence_liftover and transcript_projection as a
closed set. -/
inductive RelationCode
  | liftover_to
  | transcribes_to
  | translates_from
  | codon_translation
  | sequence_liftover
  | transcript_projection
  deriving DecidableEq, Repr

/-- Modelled from the spec: a `Relation` object attached to a constraint, a
(primaryCode, optional qualifiers) pair.  `recipes.py` reads `r.primaryCode` on the
elements of `constraint.relations`, so the elements are these objects, not bare
codes. -/
structure RelationObj where
  primaryCode : RelationCode
  qualifiers : Option (List String)
  deriving DecidableEq, Repr

/-- Modelled from the spec: the tags of the polymorphic constraint variants
(DefiningAlleleConstraint, DefiningLocationConstraint, DefiningContextConstraint,
CopyChangeConstraint, CopyCountConstraint). -/
inductive ConstraintType
  | definingAlleleConstraint
  | definingLocationConstraint
  | definingContextConstraint
  | copyChangeConstraint
  | copyCountConstraint
  deriving DecidableEq, Repr

/-- Modelled from the spec: a constraint object, a variant tag together with an
optional ordered list of Relation objects (the Python classes are absent from the
snapshot; the `isinstance` checks of `recipes.py` become tag comparisons here). -/
structure Constraint where
  ctype : ConstraintType
  relations : Option (List RelationObj)
  deriving DecidableEq, Repr

/-- Python truthiness of an optional list field: `None` and the empty list are both
falsy, a non-empty list is truthy. -/
def relsTruthy {α : Type} : Option (List α) → Bool
  | none => false
  | some l => !l.isEmpty

/-- The count `sum(1 for r in rels if r.primaryCode == code)` used by `recipes.py`. -/
def relCount (rels : List RelationObj) (code : RelationCode) : Nat :=
  rels.countP (fun r => r.primaryCode == code)

/-- The distinct failure outcomes of construction.  `cardinality` stands for a pydantic
`min_length` / `max_length` violation, `typeError` for a `TypeError` escaping a
validator, `indexError` for an out-of-bounds list access, and the remaining semantic
constructors for the distinct `ValueError` messages raised in `recipes.py`; the last
three stand for pydantic structural decode failures. -/
inductive ValErr
  | cardinality
  | indexError
  | typeError
  | notDefiningAllele
  | relationsRequired
  | liftoverCountNotOne
  | transcribesCountNotOne
  | missingTranslatesFrom
  | missingLocationLiftover
  | missingCopyConstraint
  | missingField
  | wrongFieldType
  | unknownTag
  deriving DecidableEq, Repr

/-- Whether an error is a semantic constraint violation (a `ValueError` raised inside a
`field_validator`), as opposed to a structural or type error. -/
def ValErr.isSemanticViolation : ValErr → Bool
  | .notDefiningAllele | .relationsRequired | .liftoverCountNotOne
  | .transcribesCountNotOne | .missingTranslatesFrom
  | .missingLocationLiftover | .missingCopyConstraint => true
  | _ => false

/-- Whether construction succeeded. -/
def exceptOk {α : Type} : Except ValErr α → Bool
  | .ok _ => true
  | .error _ => false

/-- Whether construction aborted with an out-of-bounds list access. -/
def hitsIndexError {α : Type} : Except ValErr α → Bool
  | .error .indexError => true
  | _ => false

namespace CanonicalAllele

/-- `recipes.CanonicalAllele.validate_constraints`: reads `v[0]` (modelled with
`List.head?` plus an `indexError` branch), requires a `DefiningAlleleConstraint`, a
truthy `relations` list, and exactly one relation counted on `primaryCode` for each of
`liftover_to` and `transcribes_to`. -/
def validate_constraints (v : List Constraint) : Except ValErr (List Constraint) :=
  match v.head? with
  | none => .error .indexError
  | some c =>
    if c.ctype ≠ .definingAlleleConstraint then .error .notDefiningAllele
    else if !relsTruthy c.relations then .error .relationsRequired
    else if relCount (c.relations.getD []) .liftover_to ≠ 1 then
      .error .liftoverCountNotOne
    else if relCount (c.relations.getD []) .transcribes_to ≠ 1 then
      .error .transcribesCountNotOne
    else .ok v

/-- Construction of a strict-profile CanonicalAllele from its decoded `constraints`
value: the field carries `min_length=1, max_length=1`, enforced by pydantic before the
`field_validator` runs. -/
def construct (v : List Constraint) : Except ValErr (List Constraint) :=
  if v.length = 1 then validate_constraints v else .error .cardinality

end CanonicalAllele

namespace ProteinSequenceConsequence

/-- The predicate one iteration of the `any(all((...)))` expression in
`recipes.ProteinSequenceConsequence.validate_constraints` computes when
`constraint.relations` is present: the constraint is a `DefiningAlleleConstraint`, its
`relations` is truthy, and exactly one relation has `primaryCode == translates_from`. -/
def item_pred (c : Constraint) : Bool :=
  c.ctype == .definingAlleleConstraint
    && relsTruthy c.relations
    && relCount (c.relations.getD []) .translates_from == 1

/-- One evaluation of the tuple inside `any(...)`.  Building the tuple evaluates
`sum(1 for r in constraint.relations if ...)`, and creating that generator expression
calls `iter(constraint.relations)` immediately, so when `relations` is `None` the
iteration raises a `TypeError` even though the `isinstance` element of the tuple is
`False`. -/
def item_result (c : Constraint) : Except ValErr Bool :=
  match c.relations with
  | none => .error .typeError
  | some _ => .ok (item_pred c)

/-- The lazy left-to-right `any(...)` scan over the constraints list: stops at the
first satisfying item, propagates a `TypeError` from the item it is examining. -/
def scan_any : List Constraint → Except ValErr Bool
  | [] => .ok false
  | c :: rest =>
    match item_result c with
    | .error e => .error e
    | .ok true => .ok true
    | .ok false => scan_any rest

/-- `recipes.ProteinSequenceConsequence.validate_constraints`. -/
def validate_constraints (v : List Constraint) : Except ValErr (List Constraint) :=
  match scan_any v with
  | .error e => .error e
  | .ok true => .ok v
  | .ok false => .error .missingTranslatesFrom

/-- Construction of a strict-profile ProteinSequenceConsequence from its decoded
`constraints` value: the field carries `min_length=1`. -/
def construct (v : List Constraint) : Except ValErr (List Constraint) :=
  if 1 ≤ v.length then validate_constraints v else .error .cardinality

end ProteinSequenceConsequence

namespace CategoricalCnv

/-- Python `==` between the string-valued enumeration member `Relation.LIFTOVER_TO` and
one element of `constraint.relations` (a Relation object).  The operands have unrelated
types — a str-enum is never equal to a model object — so the comparison is `False` for
every element. -/
def code_eq_relation_obj (_code : RelationCode) (_r : RelationObj) : Bool := false

/-- The membership test `Relation.LIFTOVER_TO in constraint.relations` on line 162 of
`recipes.py`: Python `in` applies `==` elementwise. -/
def code_in_relations (code : RelationCode) (rels : List RelationObj) : Bool :=
  rels.any (fun r => code_eq_relation_obj code r)

/-- The `def_loc_constr_found` condition evaluated for one constraint in
`recipes.CategoricalCnv.validate_constraints`. -/
def def_loc_pred (c : Constraint) : Bool :=
  c.ctype == .definingLocationConstraint
    && relsTruthy c.relations
    && code_in_relations .liftover_to (c.relations.getD [])

/-- The `copy_constr_found` condition evaluated for one constraint. -/
def copy_pred (c : Constraint) : Bool :=
  c.ctype == .copyCountConstraint || c.ctype == .copyChangeConstraint

/-- The `for constraint in v` loop, carrying the two found-flags. -/
def scan : List Constraint → Bool → Bool → Bool × Bool
  | [], defLoc, copyC => (defLoc, copyC)
  | c :: rest, defLoc, copyC =>
    scan rest (if defLoc then true else def_loc_pred c)
      (if copyC then true else copy_pred c)

/-- `recipes.CategoricalCnv.validate_constraints`. -/
def validate_constraints (v : List Constraint) : Except ValErr (List Constraint) :=
  let flags := scan v false false
  if !flags.fst then .error .missingLocationLiftover
  else if !flags.snd then .error .missingCopyConstraint
  else .ok v

/-- Construction of a strict-profile CategoricalCnv from its decoded `constraints`
value: the field carries `min_length=2, max_length=2`. -/
def construct (v : List Constraint) : Except ValErr (List Constraint) :=
  if v.length = 2 then validate_constraints v else .error .cardinality

end CategoricalCnv

/-- Modelled from the spec: `core_models.DefiningContextConstraint` (the module
`ga4gh.cat_vrs.core_models` is absent from the snapshot), the constraint type used by
the permissive property-mixin profile.  It carries an optional ordered list of relation
codes: `profile_models.py` compares the elements of `relations` against `Relation`
enumeration members with `in` and set operations, so the elements are bare codes. -/
structure DefiningContextConstraintCore where
  relations : Option (List RelationCode)
  deriving DecidableEq, Repr

/-- A warning logged by a permissive-profile validator, naming the missing relation
codes. -/
inductive Warning
  | missingRelations (missing : List RelationCode)
  deriving DecidableEq, Repr

namespace CanonicalAlleleProperties

/-- The `required_relations` set of
`profile_models.CanonicalAlleleProperties.validate_constraints`. -/
def required_relations : List RelationCode :=
  [.sequence_liftover, .transcript_projection]

/-- `profile_models.CanonicalAlleleProperties.validate_constraints`: returns the value
unchanged together with the list of warnings logged.  The body only runs under
`if v.relations:`, so an absent or empty relations list logs nothing; otherwise it
warns when the required relations are not a subset of `v.relations`. -/
def validate_constraints (v : DefiningContextConstraintCore) :
    DefiningContextConstraintCore × List Warning :=
  match v.relations with
  | none => (v, [])
  | some rels =>
    if rels.isEmpty then (v, [])
    else
      let missing := required_relations.filter (fun c => !rels.contains c)
      if missing.isEmpty then (v, []) else (v, [.missingRelations missing])

end CanonicalAlleleProperties

namespace ProteinSequenceConsequenceProperties

/-- `profile_models.ProteinSequenceConsequenceProperties.validate_constraints`: warns
when `v.relations` is truthy and does not contain `codon_translation`; always returns
the value unchanged. -/
def validate_constraints (v : DefiningContextConstraintCore) :
    DefiningContextConstraintCore × List Warning :=
  match v.relations with
  | none => (v, [])
  | some rels =>
    if !rels.isEmpty && !rels.contains RelationCode.codon_translation then
      (v, [.missingRelations [.codon_translation]])
    else (v, [])

end ProteinSequenceConsequenceProperties

namespace CategoricalCnvProperties

/-- `profile_models.CategoricalCnvProperties.validate_constraints`: warns when
`v.relations` is truthy and does not contain `sequence_liftover`; always returns the
value unchanged. -/
def validate_constraints (v : DefiningContextConstraintCore) :
    DefiningContextConstraintCore × List Warning :=
  match v.relations with
  | none => (v, [])
  | some rels =>
    if !rels.isEmpty && !rels.contains RelationCode.sequence_liftover then
      (v, [.missingRelations [.sequence_liftover]])
    else (v, [])

end CategoricalCnvProperties

/-- A JSON-compatible input value, the wire format decoded into the models. -/
inductive Json
  | obj (fields : List (String × Json))
  | arr (elems : List Json)
  | str (s : String)
  | num (n : Int)
  | boolV (b : Bool)
  | null

/-- Decode a relation primary code from its wire string; the vocabulary is a closed
set, unknown codes are rejected. -/
def RelationCode.ofString : String → Option RelationCode
  | "liftover_to" => some .liftover_to
  | "transcribes_to" => some .transcribes_to
  | "translates_from" => some .translates_from
  | "codon_translation" => some .codon_translation
  | "sequence_liftover" => some .sequence_liftover
  | "transcript_projection" => some .transcript_projection
  | _ => none

/-- Decode a JSON value as a relation primary code. -/
def decodeRelationCode : Json → Except ValErr RelationCode
  | .str s =>
    match RelationCode.ofString s with
    | some c => .ok c
    | none => .error .unknownTag
  | _ => .error .wrongFieldType

/-- Decode a JSON value as a list of qualifier strings. -/
def decodeQualifiers : Json → Except ValErr (List String)
  | .arr js =>
    js.mapM (fun j =>
      match j with
      | .str s => .ok s
      | _ => .error ValErr.wrongFieldType)
  | _ => .error .wrongFieldType

/-- Decode a JSON object as a Relation object: required `primaryCode`, optional
`qualifiers`. -/
def decodeRelationObj : Json → Except ValErr RelationObj
  | .obj fields =>
    match fields.lookup "primaryCode" with
    | none => .error .missingField
    | some j =>
      match decodeRelationCode j with
      | .error e => .error e
      | .ok code =>
        match fields.lookup "qualifiers" with
        | none => .ok ⟨code, none⟩
        | some .null => .ok ⟨code, none⟩
        | some qj => (decodeQualifiers qj).map (fun qs => ⟨code, some qs⟩)
  | _ => .error .wrongFieldType

/-- Decode a constraint class tag. -/
def ConstraintType.ofTag : String → Option ConstraintType
  | "DefiningAlleleConstraint" => some .definingAlleleConstraint
  | "DefiningLocationConstraint" => some .definingLocationConstraint
  | "DefiningContextConstraint" => some .definingContextConstraint
  | "CopyChangeConstraint" => some .copyChangeConstraint
  | "CopyCountConstraint" => some .copyCountConstraint
  | _ => none

/-- Decode the optional `relations` field of a strict-profile constraint object. -/
def decodeRelationsField (fields : List (String × Json)) :
    Except ValErr (Option (List RelationObj)) :=
  match fields.lookup "relations" with
  | none => .ok none
  | some .null => .ok none
  | some (.arr js) => (js.mapM decodeRelationObj).map some
  | some _ => .error .wrongFieldType

/-- Decode a JSON object as a strict-profile constraint, dispatching on its `type`
tag. -/
def decodeConstraint : Json → Except ValErr Constraint
  | .obj fields =>
    match fields.lookup "type" with
    | some (.str t) =>
      match ConstraintType.ofTag t with
      | some ct => (decodeRelationsField fields).map (fun r => ⟨ct, r⟩)
      | none => .error .unknownTag
    | some _ => .error .wrongFieldType
    | none => .error .missingField
  | _ => .error .wrongFieldType

/-- Structural decode of the strict-profile `constraints` field
(`constraints: list[Constraint]` in `recipes.py`): the value must be a JSON array of
constraint objects. -/
def strictConstraintsField (j : Json) : Except ValErr (List Constraint) :=
  match j with
  | .arr js => js.mapM decodeConstraint
  | _ => .error .wrongFieldType

/-- Decode the optional `relations` field of a permissive-profile constraint object:
a list of bare relation codes. -/
def decodeRelationCodesField (fields : List (String × Json)) :
    Except ValErr (Option (List RelationCode)) :=
  match fields.lookup "relations" with
  | none => .ok none
  | some .null => .ok none
  | some (.arr js) => (js.mapM decodeRelationCode).map some
  | some _ => .error .wrongFieldType

/-- Structural decode of a permissive-profile constraint value: the field type is a
single constraint object, so the value must be a JSON object; a JSON array (or any
other shape) is a structural error. -/
def decodeDefiningContextConstraintCore : Json → Except ValErr DefiningContextConstraintCore
  | .obj fields => (decodeRelationCodesField fields).map (fun r => ⟨r⟩)
  | _ => .error .wrongFieldType

/-- The `constraints` field of `profile_models.ProteinSequenceConsequenceProperties`,
typed as a single `DefiningContextConstraint`. -/
def ProteinSequenceConsequenceProperties.constraints_field (j : Json) :
    Except ValErr DefiningContextConstraintCore :=
  decodeDefiningContextConstraintCore j

/-- The `constraints` field of `profile_models.CanonicalAlleleProperties`, typed as a
single `DefiningContextConstraint`. -/
def CanonicalAlleleProperties.constraints_field (j : Json) :
    Except ValErr DefiningContextConstraintCore :=
  decodeDefiningContextConstraintCore j

/-- The `constraints` field of `profile_models.CategoricalCnvProperties`, typed as a
single `Constraint` object. -/
def CategoricalCnvProperties.constraints_field (j : Json) :
    Except ValErr DefiningContextConstraintCore :=
  decodeDefiningContextConstraintCore j

/-- `models.DescribedVariation`: a validated instance. -/
structure DescribedVariation where
  label : String
  description : Option String
  deriving DecidableEq, Repr

namespace DescribedVariation

/-- The `type` field check of `models.DescribedVariation`: a Literal with a default,
so an absent tag is accepted and a present tag must equal the canonical string. -/
def type_tag_ok (fields : List (String × Json)) : Bool :=
  match fields.lookup "type" with
  | none => true
  | some (.str s) => s == "DescribedVariation"
  | some _ => false

/-- pydantic decode of `models.DescribedVariation`: `type` is a Literal with a default,
`label` is a required `StrictStr` (any string, no minimum length is declared), and
`description` is an optional `StrictStr`. -/
def decode (j : Json) : Except ValErr DescribedVariation :=
  match j with
  | .obj fields =>
    if !type_tag_ok fields then .error .wrongFieldType
    else
      match fields.lookup "label" with
      | none => .error .missingField
      | some (.str s) =>
        match fields.lookup "description" with
        | none => .ok ⟨s, none⟩
        | some .null => .ok ⟨s, none⟩
        | some (.str d) => .ok ⟨s, some d⟩
        | some _ => .error .wrongFieldType
      | some _ => .error .wrongFieldType
  | _ => .error .wrongFieldType

end DescribedVariation

/-- The members of the `models.CategoricalVariation` discriminated union. -/
inductive CatVarKind
  | canonicalAllele
  | categoricalCnv
  | describedVariation
  | proteinSequenceConsequence
  deriving DecidableEq, Repr

/-- The canonical `type` tag string of each union member. -/
def CatVarKind.tag : CatVarKind → String
  | .canonicalAllele => "CanonicalAllele"
  | .categoricalCnv => "CategoricalCnv"
  | .describedVariation => "DescribedVariation"
  | .proteinSequenceConsequence => "ProteinSequenceConsequence"

/-- Recognize a `type` tag string as a union member. -/
def CatVarKind.ofTag : String → Option CatVarKind
  | "CanonicalAllele" => some .canonicalAllele
  | "CategoricalCnv" => some .categoricalCnv
  | "DescribedVariation" => some .describedVariation
  | "ProteinSequenceConsequence" => some .proteinSequenceConsequence
  | _ => none

namespace CategoricalVariation

/-- The discriminated-union resolver of `models.CategoricalVariation`: decode the
`type` field of the input mapping and select the union member it names, rejecting a
missing, non-string, or unrecognized tag. -/
def resolve_tag (j : Json) : Except ValErr CatVarKind :=
  match j with
  | .obj fields =>
    match fields.lookup "type" with
    | some (.str t) =>
      match CatVarKind.ofTag t with
      | some k => .ok k
      | none => .error .unknownTag
    | some _ => .error .wrongFieldType
    | none => .error .missingField
  | _ => .error .wrongFieldType

end CategoricalVariation

/-! ### Helper lemmas -/

lemma relCount_one_nonempty {rels : List RelationObj} {code : RelationCode}
    (h : relCount rels code = 1) : rels.isEmpty = false := by
  cases rels with
  | nil => simp [relCount] at h
  | cons a l => rfl

lemma ca_cardinality {v : List Constraint} (h : v.length ≠ 1) :
    CanonicalAllele.construct v = .error .cardinality := by
  simp [CanonicalAllele.construct, h]

lemma ca_accept {rels : List RelationObj}
    (h1 : relCount rels .liftover_to = 1) (h2 : relCount rels .transcribes_to = 1) :
    CanonicalAllele.construct [⟨.definingAlleleConstraint, some rels⟩] =
      .ok [⟨.definingAlleleConstraint, some rels⟩] := by
  have hne := relCount_one_nonempty h1
  simp [CanonicalAllele.construct, CanonicalAllele.validate_constraints, relsTruthy,
    hne, h1, h2]

lemma ca_reject_liftover {rels : List RelationObj}
    (h : relCount rels .liftover_to ≠ 1) :
    exceptOk (CanonicalAllele.construct [⟨.definingAlleleConstraint, some rels⟩]) =
      false := by
  cases hE : rels.isEmpty with
  | true =>
    simp [CanonicalAllele.construct, CanonicalAllele.validate_constraints, relsTruthy,
      hE, exceptOk]
  | false =>
    simp [CanonicalAllele.construct, CanonicalAllele.validate_constraints, relsTruthy,
      hE, h, exceptOk]

lemma ca_reject_transcribes {rels : List RelationObj}
    (h : relCount rels .transcribes_to ≠ 1) :
    exceptOk (CanonicalAllele.construct [⟨.definingAlleleConstraint, some rels⟩]) =
      false := by
  cases hE : rels.isEmpty with
  | true =>
    simp [CanonicalAllele.construct, CanonicalAllele.validate_constraints, relsTruthy,
      hE, exceptOk]
  | false =>
    by_cases hL : relCount rels .liftover_to = 1
    · simp [CanonicalAllele.construct, CanonicalAllele.validate_constraints, relsTruthy,
        hE, hL, h, exceptOk]
    · simp [CanonicalAllele.construct, CanonicalAllele.validate_constraints, relsTruthy,
        hE, hL, exceptOk]

lemma cnv_def_loc_pred_false (c : Constraint) : CategoricalCnv.def_loc_pred c = false := by
  simp [CategoricalCnv.def_loc_pred, CategoricalCnv.code_in_relations,
    CategoricalCnv.code_eq_relation_obj]

lemma cnv_scan_fst_false (l : List Constraint) (c0 : Bool) :
    (CategoricalCnv.scan l false c0).fst = false := by
  induction l generalizing c0 with
  | nil => rfl
  | cons c rest ih =>
    simp only [CategoricalCnv.scan, Bool.false_eq_true, if_false, cnv_def_loc_pred_false]
    exact ih _

lemma cnv_construct_not_ok (v : List Constraint) :
    exceptOk (CategoricalCnv.construct v) = false := by
  unfold CategoricalCnv.construct
  by_cases h : v.length = 2
  · simp [h, CategoricalCnv.validate_constraints, cnv_scan_fst_false, exceptOk]
  · simp [h, exceptOk]

/-! ### Claim theorems -/

/-- C1: for strict CanonicalAllele, a `constraints` list of length ≠ 1 always fails
with the cardinality error; a single DefiningAlleleConstraint whose relations contain
exactly one relation with primaryCode liftover_to and exactly one with transcribes_to
is accepted; and for either required code a count (on primaryCode) different from one
makes construction fail. -/
theorem canonicalAllele_constraints_rule :
    (∀ v : List Constraint, v.length ≠ 1 →
      CanonicalAllele.construct v = .error .cardinality) ∧
    (∀ rels : List RelationObj,
      relCount rels .liftover_to = 1 → relCount rels .transcribes_to = 1 →
      CanonicalAllele.construct [⟨.definingAlleleConstraint, some rels⟩] =
        .ok [⟨.definingAlleleConstraint, some rels⟩]) ∧
    (∀ rels : List RelationObj, relCount rels .liftover_to ≠ 1 →
      exceptOk (CanonicalAllele.construct [⟨.definingAlleleConstraint, some rels⟩]) =
        false) ∧
    (∀ rels : List RelationObj, relCount rels .transcribes_to ≠ 1 →
      exceptOk (CanonicalAllele.construct [⟨.definingAlleleConstraint, some rels⟩]) =
        false) :=
  ⟨fun _ h => ca_cardinality h,
   fun _ h1 h2 => ca_accept h1 h2,
   fun _ h => ca_reject_liftover h,
   fun _ h => ca_reject_transcribes h⟩

/-- Witness for C1 at concrete inputs: the empty list, a fully valid single
constraint, a zero liftover_to count, and a duplicated transcribes_to count. -/
theorem canonicalAllele_constraints_rule_witness :
    CanonicalAllele.construct [] = .error .cardinality ∧
    CanonicalAllele.construct
        [⟨.definingAlleleConstraint,
          some [⟨.liftover_to, none⟩, ⟨.transcribes_to, none⟩]⟩] =
      .ok [⟨.definingAlleleConstraint,
          some [⟨.liftover_to, none⟩, ⟨.transcribes_to, none⟩]⟩] ∧
    exceptOk (CanonicalAllele.construct
        [⟨.definingAlleleConstraint, some [⟨.transcribes_to, none⟩]⟩]) = false ∧
    exceptOk (CanonicalAllele.construct
        [⟨.definingAlleleConstraint,
          some [⟨.liftover_to, none⟩, ⟨.transcribes_to, none⟩,
            ⟨.transcribes_to, none⟩]⟩]) = false :=
  ⟨canonicalAllele_constraints_rule.1 [] (by decide),
   canonicalAllele_constraints_rule.2.1 [⟨.liftover_to, none⟩, ⟨.transcribes_to, none⟩]
     (by decide) (by decide),
   canonicalAllele_constraints_rule.2.2.1 [⟨.transcribes_to, none⟩] (by decide),
   canonicalAllele_constraints_rule.2.2.2
     [⟨.liftover_to, none⟩, ⟨.transcribes_to, none⟩, ⟨.transcribes_to, none⟩]
     (by decide)⟩

/-- C2: the strict CategoricalCnv validator can never succeed.  At the documented valid
input — a DefiningLocationConstraint whose relations contain a liftover_to relation
plus a CopyCountConstraint — construction still fails, because the membership test
compares the liftover_to code against whole Relation objects and never matches; more
generally no constraints list is ever accepted. -/
theorem categoricalCnv_liftover_check_never_matches :
    CategoricalCnv.construct
        [⟨.definingLocationConstraint, some [⟨.liftover_to, none⟩]⟩,
         ⟨.copyCountConstraint, none⟩] = .error .missingLocationLiftover ∧
    (∀ v : List Constraint, exceptOk (CategoricalCnv.construct v) = false) :=
  ⟨rfl, cnv_construct_not_ok⟩

/-- C3: in the strict ProteinSequenceConsequence validator the tuple inside
`any(all((...)))` iterates `constraint.relations` eagerly, so a constraint whose
relations are absent raises a TypeError — both before and after a valid
DefiningAlleleConstraint with one translates_from relation is appended — and that
failure is not a semantic constraint violation. -/
theorem proteinSequenceConsequence_absent_relations_type_error :
    ProteinSequenceConsequence.construct [⟨.copyCountConstraint, none⟩] =
      .error .typeError ∧
    ProteinSequenceConsequence.construct
        [⟨.copyCountConstraint, none⟩,
         ⟨.definingAlleleConstraint, some [⟨.translates_from, none⟩]⟩] =
      .error .typeError ∧
    ValErr.isSemanticViolation .typeError = false :=
  ⟨rfl, rfl, rfl⟩

/-- C8: strict ProteinSequenceConsequence validation is not invariant under
permutations of the constraints list: a satisfying DefiningAlleleConstraint followed by
a constraint with absent relations is accepted, while the swapped order — a permutation
of it — aborts with a TypeError; the strict CategoricalCnv outcome is permutation
invariant. -/
theorem psc_cnv_permutation_behavior :
    ProteinSequenceConsequence.construct
        [⟨.definingAlleleConstraint, some [⟨.translates_from, none⟩]⟩,
         ⟨.copyCountConstraint, none⟩] =
      .ok [⟨.definingAlleleConstraint, some [⟨.translates_from, none⟩]⟩,
           ⟨.copyCountConstraint, none⟩] ∧
    ProteinSequenceConsequence.construct
        [⟨.copyCountConstraint, none⟩,
         ⟨.definingAlleleConstraint, some [⟨.translates_from, none⟩]⟩] =
      .error .typeError ∧
    List.Perm
      [(⟨.definingAlleleConstraint, some [⟨.translates_from, none⟩]⟩ : Constraint),
       ⟨.copyCountConstraint, none⟩]
      [⟨.copyCountConstraint, none⟩,
       ⟨.definingAlleleConstraint, some [⟨.translates_from, none⟩]⟩] ∧
    (∀ v w : List Constraint, List.Perm v w →
      exceptOk (CategoricalCnv.construct v) = exceptOk (CategoricalCnv.construct w)) :=
  ⟨rfl, rfl,
   List.Perm.swap ((⟨.copyCountConstraint, none⟩ : Constraint))
     ((⟨.definingAlleleConstraint, some [⟨.translates_from, none⟩]⟩ : Constraint)) [],
   fun v w _ => by rw [cnv_construct_not_ok, cnv_construct_not_ok]⟩

/-- Witness for C8, discharging the permutation hypothesis at a concrete pair of
lists. -/
theorem psc_cnv_permutation_behavior_witness :
    exceptOk (CategoricalCnv.construct
        [⟨.definingLocationConstraint, none⟩, ⟨.copyCountConstraint, none⟩]) =
      exceptOk (CategoricalCnv.construct
        [⟨.copyCountConstraint, none⟩, ⟨.definingLocationConstraint, none⟩]) :=
  psc_cnv_permutation_behavior.2.2.2
    [⟨.definingLocationConstraint, none⟩, ⟨.copyCountConstraint, none⟩]
    [⟨.copyCountConstraint, none⟩, ⟨.definingLocationConstraint, none⟩]
    (List.Perm.swap ((⟨.copyCountConstraint, none⟩ : Constraint))
      ((⟨.definingLocationConstraint, none⟩ : Constraint)) [])

/-- C9: the access `v[0]` in the strict CanonicalAllele validator is always in bounds:
full construction never aborts with an index error, and on every list that satisfies
the structural length-one gate the validator itself never aborts with an index
error. -/
theorem canonicalAllele_first_index_safe :
    (∀ v : List Constraint, hitsIndexError (CanonicalAllele.construct v) = false) ∧
    (∀ v : List Constraint, v.length = 1 →
      hitsIndexError (CanonicalAllele.validate_constraints v) = false) := by
  have hval : ∀ (c : Constraint) (rest : List Constraint),
      hitsIndexError (CanonicalAllele.validate_constraints (c :: rest)) = false := by
    intro c rest
    simp only [CanonicalAllele.validate_constraints, List.head?_cons]
    split_ifs <;> rfl
  constructor
  · intro v
    unfold CanonicalAllele.construct
    cases v with
    | nil => rfl
    | cons c rest =>
      by_cases h : (c :: rest).length = 1
      · rw [if_pos h]
        exact hval c rest
      · rw [if_neg h]; rfl
  · intro v h
    cases v with
    | nil => simp at h
    | cons c rest => exact hval c rest

/-- Witness for C9, discharging the length hypothesis at a concrete singleton list. -/
theorem canonicalAllele_first_index_safe_witness :
    hitsIndexError
      (CanonicalAllele.validate_constraints [⟨.copyCountConstraint, none⟩]) = false :=
  canonicalAllele_first_index_safe.2 [⟨.copyCountConstraint, none⟩] (by decide)

/-- Counterexample for C4 as stated: in the permissive profile a constraint with an
absent (and likewise an empty) relations list produces no warning at all — validation
passes it through with an empty warning list, so the missing-relation warning is not
emitted. -/
theorem permissive_missing_relations_warning_cex :
    CanonicalAlleleProperties.validate_constraints ⟨none⟩ = (⟨none⟩, []) ∧
    CanonicalAlleleProperties.validate_constraints ⟨some []⟩ = (⟨some []⟩, []) :=
  ⟨rfl, rfl⟩

/-- C4 amended: in the strict profile a constraint whose relations list is empty or
absent never satisfies a must-contain-relation predicate — the CanonicalAllele
validator fails on its relations-required check, the ProteinSequenceConsequence
per-item evaluation is false on an empty list and a TypeError on an absent one, and the
CategoricalCnv location predicate is false — while in the permissive profile such a
constraint is passed through with no warning logged at all. -/
theorem empty_relations_never_vacuous :
    (∀ rels : Option (List RelationObj), relsTruthy rels = false →
      CanonicalAllele.construct [⟨.definingAlleleConstraint, rels⟩] =
        .error .relationsRequired) ∧
    (∀ c : Constraint, relsTruthy c.relations = false →
      ProteinSequenceConsequence.item_pred c = false) ∧
    (∀ t : ConstraintType,
      ProteinSequenceConsequence.item_result ⟨t, some []⟩ = .ok false ∧
      ProteinSequenceConsequence.item_result ⟨t, none⟩ = .error .typeError) ∧
    (∀ c : Constraint, relsTruthy c.relations = false →
      CategoricalCnv.def_loc_pred c = false) ∧
    (∀ v : DefiningContextConstraintCore, relsTruthy v.relations = false →
      CanonicalAlleleProperties.validate_constraints v = (v, []) ∧
      ProteinSequenceConsequenceProperties.validate_constraints v = (v, []) ∧
      CategoricalCnvProperties.validate_constraints v = (v, [])) := by
  refine ⟨?_, ?_, ?_, ?_, ?_⟩
  · intro rels h
    simp [CanonicalAllele.construct, CanonicalAllele.validate_constraints, h]
  · intro c h
    simp [ProteinSequenceConsequence.item_pred, h]
  · intro t
    exact ⟨by simp [ProteinSequenceConsequence.item_result,
      ProteinSequenceConsequence.item_pred, relsTruthy], rfl⟩
  · intro c _
    exact cnv_def_loc_pred_false c
  · intro v h
    obtain ⟨r⟩ := v
    cases r with
    | none => exact ⟨rfl, rfl, rfl⟩
    | some rels =>
      simp only [relsTruthy, Bool.not_eq_false'] at h
      have hnil : rels = [] := by simpa using h
      subst hnil
      exact ⟨rfl, rfl, rfl⟩

/-- Witness for C4, discharging the falsy-relations hypotheses at concrete inputs. -/
theorem empty_relations_never_vacuous_witness :
    CanonicalAllele.construct [⟨.definingAlleleConstraint, none⟩] =
      .error .relationsRequired ∧
    ProteinSequenceConsequence.item_pred ⟨.definingAlleleConstraint, some []⟩ = false ∧
    CategoricalCnv.def_loc_pred ⟨.definingLocationConstraint, none⟩ = false ∧
    CanonicalAlleleProperties.validate_constraints ⟨none⟩ = (⟨none⟩, []) ∧
    ProteinSequenceConsequenceProperties.validate_constraints ⟨none⟩ = (⟨none⟩, []) ∧
    CategoricalCnvProperties.validate_constraints ⟨none⟩ = (⟨none⟩, []) :=
  ⟨empty_relations_never_vacuous.1 none rfl,
   empty_relations_never_vacuous.2.1 ⟨.definingAlleleConstraint, some []⟩ rfl,
   empty_relations_never_vacuous.2.2.2.1 ⟨.definingLocationConstraint, none⟩ rfl,
   (empty_relations_never_vacuous.2.2.2.2 ⟨none⟩ rfl).1,
   (empty_relations_never_vacuous.2.2.2.2 ⟨none⟩ rfl).2.1,
   (empty_relations_never_vacuous.2.2.2.2 ⟨none⟩ rfl).2.2⟩

/-- C5: a single defining constraint missing a required relation code fails strict
CanonicalAllele construction (here: no transcribes_to relation at all), while in the
permissive profile a defining-context constraint with a non-empty relations list
missing the required transcript_projection code passes validation unchanged and logs
exactly one warning whose missing set names transcript_projection. -/
theorem canonicalAllele_two_profiles_missing_relation :
    (∀ rels : List RelationObj, relCount rels .transcribes_to = 0 →
      exceptOk (CanonicalAllele.construct [⟨.definingAlleleConstraint, some rels⟩]) =
        false) ∧
    (∀ rels : List RelationCode, rels ≠ [] →
      rels.contains RelationCode.transcript_projection = false →
      CanonicalAlleleProperties.validate_constraints ⟨some rels⟩ =
        (⟨some rels⟩,
          [Warning.missingRelations
            (CanonicalAlleleProperties.required_relations.filter
              (fun c => !rels.contains c))]) ∧
      RelationCode.transcript_projection ∈
        CanonicalAlleleProperties.required_relations.filter
          (fun c => !rels.contains c)) := by
  constructor
  · intro rels h
    exact ca_reject_transcribes (by omega)
  · intro rels h1 h2
    have hnm : RelationCode.transcript_projection ∉ rels := by simpa using h2
    have hmem : RelationCode.transcript_projection ∈
        CanonicalAlleleProperties.required_relations.filter
          (fun c => !rels.contains c) := by
      rw [List.mem_filter]
      exact ⟨by decide, by simpa using hnm⟩
    have hE : rels.isEmpty = false := by
      cases rels with
      | nil => exact absurd rfl h1
      | cons a l => rfl
    have hmE : (CanonicalAlleleProperties.required_relations.filter
        (fun c => !rels.contains c)).isEmpty = false := by
      cases hM : CanonicalAlleleProperties.required_relations.filter
          (fun c => !rels.contains c) with
      | nil => rw [hM] at hmem; simp at hmem
      | cons a l => rfl
    refine ⟨?_, hmem⟩
    simp only [CanonicalAlleleProperties.validate_constraints, hE, hmE,
      Bool.false_eq_true, if_false]

/-- Witness for C5: relations with only a liftover_to relation on the strict side, and
only the sequence_liftover code on the permissive side. -/
theorem canonicalAllele_two_profiles_missing_relation_witness :
    exceptOk (CanonicalAllele.construct
        [⟨.definingAlleleConstraint, some [⟨.liftover_to, none⟩]⟩]) = false ∧
    CanonicalAlleleProperties.validate_constraints ⟨some [.sequence_liftover]⟩ =
      (⟨some [.sequence_liftover]⟩,
        [Warning.missingRelations
          (CanonicalAlleleProperties.required_relations.filter
            (fun c => !([RelationCode.sequence_liftover].contains c)))]) ∧
    RelationCode.transcript_projection ∈
      CanonicalAlleleProperties.required_relations.filter
        (fun c => !([RelationCode.sequence_liftover].contains c)) :=
  ⟨canonicalAllele_two_profiles_missing_relation.1 [⟨.liftover_to, none⟩] (by decide),
   (canonicalAllele_two_profiles_missing_relation.2 [.sequence_liftover]
     (by decide) (by decide)).1,
   (canonicalAllele_two_profiles_missing_relation.2 [.sequence_liftover]
     (by decide) (by decide)).2⟩

/-- Counterexample for C6 as stated: a DescribedVariation with an empty-string label is
accepted — only presence and string type of `label` are enforced, not non-emptiness. -/
theorem describedVariation_empty_label_cex :
    DescribedVariation.decode
        (.obj [("type", .str "DescribedVariation"), ("label", .str "")]) =
      .ok ⟨"", none⟩ := rfl

/-- C6 amended: the `label` field of DescribedVariation is required and must be a
string — decoding fails when it is absent and when it is not a string — but an
empty-string label is accepted. -/
theorem describedVariation_label_rule :
    (∀ fields : List (String × Json), fields.lookup "label" = none →
      exceptOk (DescribedVariation.decode (.obj fields)) = false) ∧
    (∀ (fields : List (String × Json)) (n : Int),
      fields.lookup "label" = some (.num n) →
      exceptOk (DescribedVariation.decode (.obj fields)) = false) ∧
    DescribedVariation.decode
        (.obj [("type", .str "DescribedVariation"), ("label", .str ""),
          ("description", .str "text")]) =
      .ok ⟨"", some "text"⟩ := by
  refine ⟨?_, ?_, rfl⟩
  · intro fields h
    unfold DescribedVariation.decode
    simp only [h]
    cases hT : DescribedVariation.type_tag_ok fields <;> simp [hT, exceptOk]
  · intro fields n h
    unfold DescribedVariation.decode
    simp only [h]
    cases hT : DescribedVariation.type_tag_ok fields <;> simp [hT, exceptOk]

/-- Witness for C6 at concrete inputs: an object with no label field, and an object
with an integer label. -/
theorem describedVariation_label_rule_witness :
    exceptOk (DescribedVariation.decode (.obj [])) = false ∧
    exceptOk (DescribedVariation.decode (.obj [("label", .num 3)])) = false :=
  ⟨describedVariation_label_rule.1 [] rfl,
   describedVariation_label_rule.2.1 [("label", .num 3)] 3 rfl⟩

lemma catVarKind_ofTag_tag {t : String} {k : CatVarKind}
    (h : CatVarKind.ofTag t = some k) : t = k.tag := by
  unfold CatVarKind.ofTag at h
  split at h <;>
    first
      | (injection h with h; subst h; rfl)
      | exact Option.noConfusion h

/-- C7: the discriminated-union resolver fails when the `type` field is absent and when
it is a string outside the closed set of the four kind names, and it never silently
coerces: a successful resolution implies the input object carried exactly the resolved
kind's canonical tag. -/
theorem categoricalVariation_tag_resolution :
    (∀ fields : List (String × Json), fields.lookup "type" = none →
      CategoricalVariation.resolve_tag (.obj fields) = .error .missingField) ∧
    (∀ (fields : List (String × Json)) (t : String),
      fields.lookup "type" = some (.str t) → CatVarKind.ofTag t = none →
      CategoricalVariation.resolve_tag (.obj fields) = .error .unknownTag) ∧
    (∀ (j : Json) (k : CatVarKind), CategoricalVariation.resolve_tag j = .ok k →
      ∃ fields, j = .obj fields ∧
        fields.lookup "type" = some (.str (CatVarKind.tag k))) := by
  refine ⟨?_, ?_, ?_⟩
  · intro fields h
    simp [CategoricalVariation.resolve_tag, h]
  · intro fields t h1 h2
    simp [CategoricalVariation.resolve_tag, h1, h2]
  · intro j k h
    cases j with
    | obj fields =>
      refine ⟨fields, rfl, ?_⟩
      cases hL : fields.lookup "type" with
      | none => simp [CategoricalVariation.resolve_tag, hL] at h
      | some jt =>
        cases jt with
        | str t =>
          cases hO : CatVarKind.ofTag t with
          | none => simp [CategoricalVariation.resolve_tag, hL, hO] at h
          | some q =>
            simp only [CategoricalVariation.resolve_tag, hL, hO] at h
            have hq : q = k := by simpa using h
            subst hq
            rw [catVarKind_ofTag_tag hO]
        | obj f => simp [CategoricalVariation.resolve_tag, hL] at h
        | arr l => simp [CategoricalVariation.resolve_tag, hL] at h
        | num n => simp [CategoricalVariation.resolve_tag, hL] at h
        | boolV b => simp [CategoricalVariation.resolve_tag, hL] at h
        | null => simp [CategoricalVariation.resolve_tag, hL] at h
    | arr l => simp [CategoricalVariation.resolve_tag] at h
    | str s => simp [CategoricalVariation.resolve_tag] at h
    | num n => simp [CategoricalVariation.resolve_tag] at h
    | boolV b => simp [CategoricalVariation.resolve_tag] at h
    | null => simp [CategoricalVariation.resolve_tag] at h

/-- Witness for C7 at concrete inputs: an object without a type, an object with the
unrecognized tag Bogus, and a successful resolution of CategoricalCnv. -/
theorem categoricalVariation_tag_resolution_witness :
    CategoricalVariation.resolve_tag (.obj []) = .error .missingField ∧
    CategoricalVariation.resolve_tag (.obj [("type", .str "Bogus")]) =
      .error .unknownTag ∧
    ∃ fields, (Json.obj [("type", .str "CategoricalCnv")]) = .obj fields ∧
      fields.lookup "type" = some (.str (CatVarKind.tag .categoricalCnv)) :=
  ⟨categoricalVariation_tag_resolution.1 [] rfl,
   categoricalVariation_tag_resolution.2.1 [("type", .str "Bogus")] "Bogus" rfl rfl,
   categoricalVariation_tag_resolution.2.2
     (.obj [("type", .str "CategoricalCnv")]) .categoricalCnv rfl⟩

/-- C10: the permissive-profile `constraints` field of all three kinds is a single
constraint object — every JSON array value is a structural decode error, while a plain
object decodes — unlike the strict profile, whose `constraints` field is a JSON array
and rejects a plain object. -/
theorem permissive_constraints_single_object :
    (∀ js : List Json,
      ProteinSequenceConsequenceProperties.constraints_field (.arr js) =
        .error .wrongFieldType ∧
      CanonicalAlleleProperties.constraints_field (.arr js) =
        .error .wrongFieldType ∧
      CategoricalCnvProperties.constraints_field (.arr js) =
        .error .wrongFieldType) ∧
    CanonicalAlleleProperties.constraints_field (.obj []) = .ok ⟨none⟩ ∧
    strictConstraintsField (.arr []) = .ok [] ∧
    strictConstraintsField (.obj []) = .error .wrongFieldType :=
  ⟨fun _ => ⟨rfl, rfl, rfl⟩, rfl, rfl, rfl⟩

end CatVrs
